import Mathlib

/-!
Verification development for `config/config.go`

The Go package `config` loads a TOML file into a `Config`, checks that the
credential fields are present and builds a client-secret token credential.

Shallow embedding used below.

* Go `error` values are modelled by `GoError`: either an error created by
  `fmt.Errorf` without a wrapping verb (or an error coming from a collaborator),
  or an error created by `fmt.Errorf("<text>%w", err)`.  `GoError.Error` is the
  message Go prints; `GoError.Unwrap` is the wrapped error.
* A Go `error` result is `Option GoError` (`none` is `nil`).  A Go result pair
  `(T, error)` is a pair `Option T × Option GoError` (`none` is `nil`).
* `azcore.ClientOptions` and `azcore.TokenCredential` are declared outside the
  repository; they are type parameters.
* `toml.DecodeFile` and `azidentity.NewClientSecretCredential` are collaborators
  outside the repository.  They are fields of `Env`, and both may depend on and
  change an external state of type `σ`.
* `World` carries the external state and a log of the arguments of every call of
  `azidentity.NewClientSecretCredential`, so that the number of calls and their
  arguments can be stated.
-/

/-- Go error values: `errorf msg` is an error whose message is `msg` and which wraps
nothing; `wrapf pre inner` is the value of `fmt.Errorf(pre ++ "%w", inner)`. -/
inductive GoError where
  | errorf (msg : String) : GoError
  | wrapf (pre : String) (inner : GoError) : GoError
  deriving DecidableEq, Repr

/-- Message of an error, Go's `err.Error()`. -/
def GoError.Error : GoError → String
  | .errorf msg => msg
  | .wrapf pre inner => pre ++ inner.Error

/-- Wrapped error, Go's `errors.Unwrap(err)`. -/
def GoError.Unwrap : GoError → Option GoError
  | .errorf _ => none
  | .wrapf _ inner => some inner

/-- Go's `strings.HasPrefix(s, p)`, on the characters of the strings. -/
def HasPrefix (s p : String) : Prop := p.data <+: s.data

instance (s p : String) : Decidable (HasPrefix s p) := by
  unfold HasPrefix; infer_instance

/-- Credentials of `config.go`, lines 50-63. -/
structure Credentials (ClientOptions : Type) where
  Name : String
  Description : String
  TenantID : String
  ClientID : String
  SubscriptionID : String
  ClientSecret : String
  ClientOptions : ClientOptions

/-- Config of `config.go`, lines 24-27. -/
structure Config (ClientOptions : Type) where
  Credentials : Credentials ClientOptions
  Location : String

/-- The options value `azidentity.ClientSecretCredentialOptions` as the source builds
it: the composite literal sets `ClientOptions` only, every other field of the
external struct stays at its zero value and is not represented. -/
structure ClientSecretCredentialOptions (ClientOptions : Type) where
  ClientOptions : ClientOptions

/-- `Credentials.Validate` of `config.go`, lines 65-83. -/
def Credentials.Validate {ClientOptions : Type} (c : Credentials ClientOptions) :
    Option GoError :=
  if c.TenantID = "" then
    some (GoError.errorf "missing tenant_id")
  else if c.ClientID = "" then
    some (GoError.errorf "missing client_id")
  else if c.SubscriptionID = "" then
    some (GoError.errorf "missing subscription_id")
  else if c.ClientSecret = "" then
    some (GoError.errorf "missing subscription_id")
  else
    none

/-- Arguments of one call of `azidentity.NewClientSecretCredential`. -/
structure CtorCall (ClientOptions : Type) where
  tenantID : String
  clientID : String
  clientSecret : String
  options : ClientSecretCredentialOptions ClientOptions

/-- The collaborators outside the repository.  `DecodeFile path v s` is
`toml.DecodeFile(path, &v)` in external state `s`: it yields the value `v` points to
afterwards, the returned error and the next external state.
`NewClientSecretCredential t c k o s` is the credential constructor in external state
`s`: it yields either an error or a credential handle, and the next external state. -/
structure Env (σ ClientOptions TokenCredential : Type) where
  DecodeFile : String → Config ClientOptions → σ →
    (Config ClientOptions × Option GoError) × σ
  NewClientSecretCredential : String → String → String →
    ClientSecretCredentialOptions ClientOptions → σ → Except GoError TokenCredential × σ

/-- State threaded through the operations: the external state and the log of the calls
of the credential constructor, oldest first. -/
structure World (σ ClientOptions : Type) where
  ext : σ
  ctorCalls : List (CtorCall ClientOptions)

section Operations

variable {σ ClientOptions TokenCredential : Type}

/-- A call of `azidentity.NewClientSecretCredential`: runs the collaborator on the
external state and appends the arguments to the call log. -/
def Env.callNewClientSecretCredential (env : Env σ ClientOptions TokenCredential)
    (tenantID clientID clientSecret : String)
    (o : ClientSecretCredentialOptions ClientOptions) (w : World σ ClientOptions) :
    Except GoError TokenCredential × World σ ClientOptions :=
  let r := env.NewClientSecretCredential tenantID clientID clientSecret o w.ext
  (r.1, { ext := r.2, ctorCalls := w.ctorCalls ++ [⟨tenantID, clientID, clientSecret, o⟩] })

/-- A call of `toml.DecodeFile(cfgFile, &config)`: runs the collaborator on the external
state; the call log is untouched. -/
def Env.callDecodeFile (env : Env σ ClientOptions TokenCredential)
    (cfgFile : String) (config : Config ClientOptions) (w : World σ ClientOptions) :
    (Config ClientOptions × Option GoError) × World σ ClientOptions :=
  let r := env.DecodeFile cfgFile config w.ext
  (r.1, { ext := r.2, ctorCalls := w.ctorCalls })

/-- `Credentials.Auth` of `config.go`, lines 85-96. -/
def Credentials.Auth (env : Env σ ClientOptions TokenCredential)
    (c : Credentials ClientOptions) (w : World σ ClientOptions) :
    (Option TokenCredential × Option GoError) × World σ ClientOptions :=
  match c.Validate with
  | some err => ((none, some (GoError.wrapf "validating credentials: " err)), w)
  | none =>
    let o : ClientSecretCredentialOptions ClientOptions := { ClientOptions := c.ClientOptions }
    match env.callNewClientSecretCredential c.TenantID c.ClientID c.ClientSecret o w with
    | (Except.error err, w1) => ((none, some err), w1)
    | (Except.ok cred, w1) => ((some cred, none), w1)

/-- `Config.Validate` of `config.go`, lines 42-48. -/
def Config.Validate (env : Env σ ClientOptions TokenCredential)
    (c : Config ClientOptions) (w : World σ ClientOptions) :
    Option GoError × World σ ClientOptions :=
  match c.Credentials.Auth env w with
  | ((_, some err), w1) => (some (GoError.wrapf "failed to validate credentials: " err), w1)
  | ((_, none), w1) => (none, w1)

/-- `Config.GetCredentials` of `config.go`, lines 29-40. -/
def Config.GetCredentials (env : Env σ ClientOptions TokenCredential)
    (c : Config ClientOptions) (w : World σ ClientOptions) :
    (Option TokenCredential × Option GoError) × World σ ClientOptions :=
  match c.Validate env w with
  | (some err, w1) => ((none, some (GoError.wrapf "error validating config: " err)), w1)
  | (none, w1) =>
    match c.Credentials.Auth env w1 with
    | ((_, some err), w2) =>
      ((none, some (GoError.wrapf "failed to get authentication token: " err)), w2)
    | ((creds, none), w2) => ((creds, none), w2)

/-- The zero value of `Config` (`var config Config`); the zero value of the external
`azcore.ClientOptions` is the `default` of the parameter type. -/
def Config.zero [Inhabited ClientOptions] : Config ClientOptions :=
  { Credentials :=
      { Name := "", Description := "", TenantID := "", ClientID := "",
        SubscriptionID := "", ClientSecret := "", ClientOptions := default },
    Location := "" }

/-- `NewConfig` of `config.go`, lines 12-22. -/
def NewConfig [Inhabited ClientOptions] (env : Env σ ClientOptions TokenCredential)
    (cfgFile : String) (w : World σ ClientOptions) :
    (Option (Config ClientOptions) × Option GoError) × World σ ClientOptions :=
  match env.callDecodeFile cfgFile Config.zero w with
  | ((_, some err), w1) => ((none, some (GoError.wrapf "error decoding config: " err)), w1)
  | ((config, none), w1) =>
    match config.Validate env w1 with
    | (some err, w2) => ((none, some (GoError.wrapf "error validating config: " err)), w2)
    | (none, w2) => ((some config, none), w2)

end Operations

/-- The four identity fields of a `Credentials` value are all non-empty. -/
def Credentials.allPresent {ClientOptions : Type} (c : Credentials ClientOptions) : Prop :=
  c.TenantID ≠ "" ∧ c.ClientID ≠ "" ∧ c.SubscriptionID ≠ "" ∧ c.ClientSecret ≠ ""

instance {ClientOptions : Type} (c : Credentials ClientOptions) : Decidable c.allPresent := by
  unfold Credentials.allPresent; infer_instance

/-- The constructor arguments `Credentials.Auth` builds from a `Credentials` value. -/
def Credentials.ctorArgs {ClientOptions : Type} (c : Credentials ClientOptions) :
    CtorCall ClientOptions :=
  ⟨c.TenantID, c.ClientID, c.ClientSecret, { ClientOptions := c.ClientOptions }⟩

/-- The world after one constructor call made for the credentials `c` in world `w`. -/
def World.afterCtor {σ ClientOptions TokenCredential : Type} (env : Env σ ClientOptions TokenCredential)
    (c : Credentials ClientOptions) (w : World σ ClientOptions) : World σ ClientOptions :=
  { ext := (env.NewClientSecretCredential c.TenantID c.ClientID c.ClientSecret
      { ClientOptions := c.ClientOptions } w.ext).2,
    ctorCalls := w.ctorCalls ++ [c.ctorArgs] }

/-- The outcome of the constructor for the credentials `c` in world `w`. -/
def Env.ctorOutcome {σ ClientOptions TokenCredential : Type} (env : Env σ ClientOptions TokenCredential)
    (c : Credentials ClientOptions) (w : World σ ClientOptions) :
    Except GoError TokenCredential :=
  (env.NewClientSecretCredential c.TenantID c.ClientID c.ClientSecret
    { ClientOptions := c.ClientOptions } w.ext).1

/-- The constructor is deterministic: whether it accepts or rejects depends on its
arguments only, not on the external state. -/
def Env.deterministic {σ ClientOptions TokenCredential : Type}
    (env : Env σ ClientOptions TokenCredential) : Prop :=
  ∀ (t k s : String) (o : ClientSecretCredentialOptions ClientOptions) (st st' : σ),
    (env.NewClientSecretCredential t k s o st).1.toBool
      = (env.NewClientSecretCredential t k s o st').1.toBool

/-- The result `r` adds the context `pre` to the error `callee`: it wraps `callee`,
`pre` is not empty and the message of `r` is `pre` followed by the message of
`callee`. -/
def addsContext (pre : String) (callee r : GoError) : Prop :=
  pre ≠ "" ∧ r.Unwrap = some callee ∧ r.Error = pre ++ callee.Error

instance (pre : String) (callee r : GoError) : Decidable (addsContext pre callee r) := by
  unfold addsContext; infer_instance

/-! ## Concrete collaborators used to evaluate the operations -/

/-- A constructor that accepts every input and returns the tenant id as handle. -/
def acceptAll : String → String → String → ClientSecretCredentialOptions Unit → Unit →
    Except GoError String × Unit :=
  fun t _ _ _ _ => (Except.ok t, ())

/-- A constructor that rejects every input with the error `bad tenant`. -/
def rejectAll : String → String → String → ClientSecretCredentialOptions Unit → Unit →
    Except GoError String × Unit :=
  fun _ _ _ _ _ => (Except.error (GoError.errorf "bad tenant"), ())

/-- A constructor whose outcome depends on the external state, a call counter: it
accepts the first call and rejects every later one. -/
def acceptOnce : String → String → String → ClientSecretCredentialOptions Unit → Nat →
    Except GoError String × Nat :=
  fun t _ _ _ n =>
    (if n = 0 then Except.ok t else Except.error (GoError.errorf "bad tenant"), n + 1)

/-- A credentials value with the given four identity fields. -/
def mkCreds (tenantID clientID subscriptionID clientSecret : String) : Credentials Unit :=
  { Name := "n", Description := "d", TenantID := tenantID, ClientID := clientID,
    SubscriptionID := subscriptionID, ClientSecret := clientSecret, ClientOptions := () }

/-- A decoder that always succeeds with the given configuration. -/
def decodeTo (cfg : Config Unit) {σ : Type} : String → Config Unit → σ →
    (Config Unit × Option GoError) × σ :=
  fun _ _ s => ((cfg, none), s)

/-- A decoder that fails with `syntax error` after filling in the given configuration. -/
def decodeFail (cfg : Config Unit) {σ : Type} : String → Config Unit → σ →
    (Config Unit × Option GoError) × σ :=
  fun _ _ s => ((cfg, some (GoError.errorf "syntax error")), s)

/-- The empty world over a trivial external state. -/
def w0 : World Unit Unit := { ext := (), ctorCalls := [] }

/-! ## Auxiliary lemmas -/

theorem GoError.Error_wrapf (pre : String) (inner : GoError) :
    (GoError.wrapf pre inner).Error = pre ++ inner.Error := rfl

theorem hasPrefix_append_self (a x : String) : HasPrefix (a ++ x) a := by
  unfold HasPrefix
  exact ⟨x.data, by simp⟩

/-- If two texts differ within their first `n` characters, then no extension of the
first starts with the second. -/
theorem not_hasPrefix_append (a p x : String) (n : Nat) (ha : n ≤ a.data.length)
    (hp : n ≤ p.data.length) (hne : p.data.take n ≠ a.data.take n) :
    ¬ HasPrefix (a ++ x) p := by
  unfold HasPrefix
  rintro ⟨t, ht⟩
  apply hne
  have h1 : (p.data ++ t).take n = ((a ++ x).data).take n := by rw [ht]
  rw [String.data_append, List.take_append_of_le_length hp,
    List.take_append_of_le_length ha] at h1
  exact h1

/-- A text that equals itself with something put in front has nothing put in front. -/
theorem eq_append_self (pre s : String) (h : s = pre ++ s) : pre = "" := by
  have hd : s.data = pre.data ++ s.data := by
    conv_lhs => rw [h]
    exact String.data_append pre s
  have hnil : pre.data = [] := by
    have hl := congrArg List.length hd
    simp at hl
    exact List.length_eq_zero.mp hl
  exact String.ext hnil

theorem Credentials.Validate_eq_none_iff {ClientOptions : Type}
    (c : Credentials ClientOptions) : c.Validate = none ↔ c.allPresent := by
  unfold Credentials.Validate Credentials.allPresent
  by_cases h1 : c.TenantID = "" <;> by_cases h2 : c.ClientID = "" <;>
    by_cases h3 : c.SubscriptionID = "" <;> by_cases h4 : c.ClientSecret = "" <;>
    simp [h1, h2, h3, h4]

section AuxOperations

variable {σ ClientOptions TokenCredential : Type}

theorem Credentials.Auth_of_missing (env : Env σ ClientOptions TokenCredential)
    (c : Credentials ClientOptions) (w : World σ ClientOptions) (err : GoError)
    (h : c.Validate = some err) :
    c.Auth env w = ((none, some (GoError.wrapf "validating credentials: " err)), w) := by
  simp [Credentials.Auth, h]

theorem Credentials.Auth_of_rejected (env : Env σ ClientOptions TokenCredential)
    (c : Credentials ClientOptions) (w : World σ ClientOptions) (err : GoError)
    (h : c.Validate = none) (hr : env.ctorOutcome c w = Except.error err) :
    c.Auth env w = ((none, some err), w.afterCtor env c) := by
  unfold Env.ctorOutcome at hr
  simp [Credentials.Auth, h, Env.callNewClientSecretCredential, hr, World.afterCtor,
    Credentials.ctorArgs]

theorem Credentials.Auth_of_accepted (env : Env σ ClientOptions TokenCredential)
    (c : Credentials ClientOptions) (w : World σ ClientOptions) (cred : TokenCredential)
    (h : c.Validate = none) (hr : env.ctorOutcome c w = Except.ok cred) :
    c.Auth env w = ((some cred, none), w.afterCtor env c) := by
  unfold Env.ctorOutcome at hr
  simp [Credentials.Auth, h, Env.callNewClientSecretCredential, hr, World.afterCtor,
    Credentials.ctorArgs]

theorem Config.Validate_of_missing (env : Env σ ClientOptions TokenCredential)
    (c : Config ClientOptions) (w : World σ ClientOptions) (err : GoError)
    (h : c.Credentials.Validate = some err) :
    c.Validate env w = (some (GoError.wrapf "failed to validate credentials: "
      (GoError.wrapf "validating credentials: " err)), w) := by
  simp [Config.Validate, Credentials.Auth_of_missing env _ w err h]

theorem Config.Validate_of_rejected (env : Env σ ClientOptions TokenCredential)
    (c : Config ClientOptions) (w : World σ ClientOptions) (err : GoError)
    (h : c.Credentials.Validate = none)
    (hr : env.ctorOutcome c.Credentials w = Except.error err) :
    c.Validate env w = (some (GoError.wrapf "failed to validate credentials: " err),
      w.afterCtor env c.Credentials) := by
  simp [Config.Validate, Credentials.Auth_of_rejected env _ w err h hr]

theorem Config.Validate_of_accepted (env : Env σ ClientOptions TokenCredential)
    (c : Config ClientOptions) (w : World σ ClientOptions) (cred : TokenCredential)
    (h : c.Credentials.Validate = none)
    (hr : env.ctorOutcome c.Credentials w = Except.ok cred) :
    c.Validate env w = (none, w.afterCtor env c.Credentials) := by
  simp [Config.Validate, Credentials.Auth_of_accepted env _ w cred h hr]

theorem Config.GetCredentials_of_missing (env : Env σ ClientOptions TokenCredential)
    (c : Config ClientOptions) (w : World σ ClientOptions) (err : GoError)
    (h : c.Credentials.Validate = some err) :
    c.GetCredentials env w = ((none, some (GoError.wrapf "error validating config: "
      (GoError.wrapf "failed to validate credentials: "
        (GoError.wrapf "validating credentials: " err)))), w) := by
  simp [Config.GetCredentials, Config.Validate_of_missing env c w err h]

theorem Config.GetCredentials_of_rejected (env : Env σ ClientOptions TokenCredential)
    (c : Config ClientOptions) (w : World σ ClientOptions) (err : GoError)
    (h : c.Credentials.Validate = none)
    (hr : env.ctorOutcome c.Credentials w = Except.error err) :
    c.GetCredentials env w = ((none, some (GoError.wrapf "error validating config: "
      (GoError.wrapf "failed to validate credentials: " err))),
      w.afterCtor env c.Credentials) := by
  simp [Config.GetCredentials, Config.Validate_of_rejected env c w err h hr]

theorem Config.GetCredentials_of_accepted_rejected
    (env : Env σ ClientOptions TokenCredential)
    (c : Config ClientOptions) (w : World σ ClientOptions) (cred : TokenCredential)
    (err : GoError) (h : c.Credentials.Validate = none)
    (hr : env.ctorOutcome c.Credentials w = Except.ok cred)
    (hr2 : env.ctorOutcome c.Credentials (w.afterCtor env c.Credentials)
      = Except.error err) :
    c.GetCredentials env w
      = ((none, some (GoError.wrapf "failed to get authentication token: " err)),
        (w.afterCtor env c.Credentials).afterCtor env c.Credentials) := by
  simp [Config.GetCredentials, Config.Validate_of_accepted env c w cred h hr,
    Credentials.Auth_of_rejected env _ _ err h hr2]

theorem Config.GetCredentials_of_accepted_twice
    (env : Env σ ClientOptions TokenCredential)
    (c : Config ClientOptions) (w : World σ ClientOptions) (cred cred2 : TokenCredential)
    (h : c.Credentials.Validate = none)
    (hr : env.ctorOutcome c.Credentials w = Except.ok cred)
    (hr2 : env.ctorOutcome c.Credentials (w.afterCtor env c.Credentials)
      = Except.ok cred2) :
    c.GetCredentials env w
      = ((some cred2, none),
        (w.afterCtor env c.Credentials).afterCtor env c.Credentials) := by
  simp [Config.GetCredentials, Config.Validate_of_accepted env c w cred h hr,
    Credentials.Auth_of_accepted env _ _ cred2 h hr2]

/-- The result of `GetCredentials` depends on the Config only through TenantID,
ClientID, ClientSecret, ClientOptions and the emptiness of SubscriptionID. -/
theorem Config.GetCredentials_congr (env : Env σ ClientOptions TokenCredential)
    (c c' : Config ClientOptions) (w : World σ ClientOptions)
    (hv : c.Credentials.Validate = none) (hv' : c'.Credentials.Validate = none)
    (h1 : c'.Credentials.TenantID = c.Credentials.TenantID)
    (h2 : c'.Credentials.ClientID = c.Credentials.ClientID)
    (h3 : c'.Credentials.ClientSecret = c.Credentials.ClientSecret)
    (h4 : c'.Credentials.ClientOptions = c.Credentials.ClientOptions) :
    c'.GetCredentials env w = c.GetCredentials env w := by
  simp [Config.GetCredentials, Config.Validate, Credentials.Auth, hv, hv', h1, h2, h3, h4]

end AuxOperations

/-! ## Claims -/

/-- C1: `Credentials.Validate` returns no error exactly when TenantID, ClientID,
SubscriptionID and ClientSecret are all non-empty; the value with tenant id `t`, client
id `c`, subscription id `s` and an empty client secret is rejected. -/
theorem C1_validate_ok_iff_all_present {ClientOptions : Type}
    (c : Credentials ClientOptions) :
    (c.Validate = none ↔
      (c.TenantID ≠ "" ∧ c.ClientID ≠ "" ∧ c.SubscriptionID ≠ "" ∧ c.ClientSecret ≠ "")) ∧
    ({ c with TenantID := "t", ClientID := "c", SubscriptionID := "s",
              ClientSecret := "" } : Credentials ClientOptions).Validate ≠ none := by
  refine ⟨Credentials.Validate_eq_none_iff c, ?_⟩
  simp [Credentials.Validate]

/-- C2: when one of TenantID, ClientID, SubscriptionID is empty, `Credentials.Validate`
fails with the message of the first empty one in that order: `missing tenant_id`, else
`missing client_id`, else `missing subscription_id`, whatever the later fields are. -/
theorem C2_validate_names_first_missing {ClientOptions : Type}
    (c : Credentials ClientOptions) :
    (c.TenantID = "" → c.Validate.map GoError.Error = some "missing tenant_id") ∧
    (c.TenantID ≠ "" → c.ClientID = "" →
      c.Validate.map GoError.Error = some "missing client_id") ∧
    (c.TenantID ≠ "" → c.ClientID ≠ "" → c.SubscriptionID = "" →
      c.Validate.map GoError.Error = some "missing subscription_id") := by
  refine ⟨?_, ?_, ?_⟩
  · intro h1
    simp [Credentials.Validate, h1, GoError.Error]
  · intro h1 h2
    simp [Credentials.Validate, h1, h2, GoError.Error]
  · intro h1 h2 h3
    simp [Credentials.Validate, h1, h2, h3, GoError.Error]

/-- Witness of C2 at three concrete credentials, one per message. -/
theorem C2_validate_names_first_missing_witness :
    (mkCreds "" "" "" "").Validate.map GoError.Error = some "missing tenant_id" ∧
    (mkCreds "t" "" "" "").Validate.map GoError.Error = some "missing client_id" ∧
    (mkCreds "t" "c" "" "").Validate.map GoError.Error = some "missing subscription_id" :=
  ⟨(C2_validate_names_first_missing (mkCreds "" "" "" "")).1 rfl,
   (C2_validate_names_first_missing (mkCreds "t" "" "" "")).2.1 (by decide) rfl,
   (C2_validate_names_first_missing (mkCreds "t" "c" "" "")).2.2 (by decide) (by decide) rfl⟩

/-- C3, the code at the failing input: with tenant id, client id and subscription id
present and the client secret empty, `Credentials.Validate` fails with the message
`missing subscription_id`, which is not `missing client_secret`. -/
theorem C3_missing_secret_reported_as_subscription :
    (mkCreds "t" "c" "s" "").Validate = some (GoError.errorf "missing subscription_id") ∧
    (mkCreds "t" "c" "s" "").Validate.map GoError.Error = some "missing subscription_id" ∧
    (mkCreds "t" "c" "s" "").Validate.map GoError.Error ≠ some "missing client_secret" := by
  decide

/-- C4: when the decoder fails, `NewConfig` returns no Config and the decoder's error
wrapped with the text `error decoding config: `; the message does not start with
`error validating config: `, whatever the decoder wrote into the Config, and the
credential constructor is not called. -/
theorem C4_decode_failure_is_decode_error {σ ClientOptions TokenCredential : Type}
    [Inhabited ClientOptions] (env : Env σ ClientOptions TokenCredential)
    (cfgFile : String) (w : World σ ClientOptions) (partialCfg : Config ClientOptions)
    (derr : GoError) (s1 : σ)
    (hdec : env.DecodeFile cfgFile Config.zero w.ext = ((partialCfg, some derr), s1)) :
    (NewConfig env cfgFile w).1 = (none, some (GoError.wrapf "error decoding config: " derr)) ∧
    (GoError.wrapf "error decoding config: " derr).Error
      = "error decoding config: " ++ derr.Error ∧
    ¬ HasPrefix (GoError.wrapf "error decoding config: " derr).Error
      "error validating config: " ∧
    (NewConfig env cfgFile w).2.ctorCalls = w.ctorCalls := by
  refine ⟨?_, rfl, ?_, ?_⟩
  · simp [NewConfig, Env.callDecodeFile, hdec]
  · rw [GoError.Error_wrapf]
    exact not_hasPrefix_append _ _ _ 7 (by decide) (by decide) (by decide)
  · simp [NewConfig, Env.callDecodeFile, hdec]

/-- Witness of C4: a decoder that fails with `syntax error` after writing a complete,
valid Config. -/
theorem C4_decode_failure_is_decode_error_witness :
    (NewConfig (⟨decodeFail ⟨mkCreds "t" "c" "s" "k", "l"⟩, acceptAll⟩ : Env Unit Unit String)
        "garm.toml" w0).1
      = (none, some (GoError.wrapf "error decoding config: " (GoError.errorf "syntax error"))) ∧
    (GoError.wrapf "error decoding config: " (GoError.errorf "syntax error")).Error
      = "error decoding config: " ++ (GoError.errorf "syntax error").Error ∧
    ¬ HasPrefix (GoError.wrapf "error decoding config: " (GoError.errorf "syntax error")).Error
      "error validating config: " ∧
    (NewConfig (⟨decodeFail ⟨mkCreds "t" "c" "s" "k", "l"⟩, acceptAll⟩ : Env Unit Unit String)
        "garm.toml" w0).2.ctorCalls = w0.ctorCalls :=
  C4_decode_failure_is_decode_error
    (⟨decodeFail ⟨mkCreds "t" "c" "s" "k", "l"⟩, acceptAll⟩ : Env Unit Unit String)
    "garm.toml" w0 ⟨mkCreds "t" "c" "s" "k", "l"⟩ (GoError.errorf "syntax error") () rfl

/-- C5: `NewConfig` returns either no Config and an error, or a Config and no error;
a returned Config is the value the decoder produced and its four identity fields are
non-empty. -/
theorem C5_newConfig_all_or_nothing {σ ClientOptions TokenCredential : Type}
    [Inhabited ClientOptions] (env : Env σ ClientOptions TokenCredential)
    (cfgFile : String) (w : World σ ClientOptions) :
    (((NewConfig env cfgFile w).1.1 = none ∧ (NewConfig env cfgFile w).1.2 ≠ none) ∨
     ((NewConfig env cfgFile w).1.1 ≠ none ∧ (NewConfig env cfgFile w).1.2 = none)) ∧
    (∀ cfg, (NewConfig env cfgFile w).1.1 = some cfg →
      cfg = (env.DecodeFile cfgFile Config.zero w.ext).1.1 ∧
      (env.DecodeFile cfgFile Config.zero w.ext).1.2 = none ∧
      cfg.Credentials.TenantID ≠ "" ∧ cfg.Credentials.ClientID ≠ "" ∧
      cfg.Credentials.SubscriptionID ≠ "" ∧ cfg.Credentials.ClientSecret ≠ "") := by
  rcases hdec : env.DecodeFile cfgFile Config.zero w.ext with ⟨⟨dcfg, derr⟩, s1⟩
  cases derr with
  | some e => simp [NewConfig, Env.callDecodeFile, hdec]
  | none =>
    cases hv : dcfg.Credentials.Validate with
    | some verr =>
      simp [NewConfig, Env.callDecodeFile, hdec, Config.Validate_of_missing env dcfg _ verr hv]
    | none =>
      have hp := (Credentials.Validate_eq_none_iff dcfg.Credentials).1 hv
      cases hr : env.ctorOutcome dcfg.Credentials ⟨s1, w.ctorCalls⟩ with
      | error cerr =>
        simp [NewConfig, Env.callDecodeFile, hdec,
          Config.Validate_of_rejected env dcfg _ cerr hv hr]
      | ok cred =>
        simp [NewConfig, Env.callDecodeFile, hdec,
          Config.Validate_of_accepted env dcfg _ cred hv hr]
        exact hp

/-- Witness of C5: a decoder that yields a complete Config and a constructor that
accepts it. -/
theorem C5_newConfig_all_or_nothing_witness :
    (NewConfig (⟨decodeTo ⟨mkCreds "t" "c" "s" "k", "l"⟩, acceptAll⟩ : Env Unit Unit String)
        "garm.toml" w0).1.1 = some ⟨mkCreds "t" "c" "s" "k", "l"⟩ ∧
    (⟨mkCreds "t" "c" "s" "k", "l"⟩ : Config Unit).Credentials.ClientSecret ≠ "" :=
  ⟨rfl, ((C5_newConfig_all_or_nothing
    (⟨decodeTo ⟨mkCreds "t" "c" "s" "k", "l"⟩, acceptAll⟩ : Env Unit Unit String)
    "garm.toml" w0).2 ⟨mkCreds "t" "c" "s" "k", "l"⟩ rfl).2.2.2.2.2⟩

/-- C6: with the constructor a function `f` of (tenant id, client id, client secret,
options), for a Config whose four identity fields are non-empty and on which `f`
succeeds with handle `h`, `GetCredentials` returns `h` and no error; the constructor is
called with (TenantID, ClientID, ClientSecret, options carrying ClientOptions) only,
and a Config that differs in SubscriptionID (non-empty), Name, Description or Location
gives the same result. -/
theorem C6_getCredentials_returns_constructor_handle
    {σ ClientOptions TokenCredential : Type} (env : Env σ ClientOptions TokenCredential)
    (f : String → String → String → ClientSecretCredentialOptions ClientOptions →
      Except GoError TokenCredential)
    (c : Config ClientOptions) (w : World σ ClientOptions) (h : TokenCredential)
    (hfun : ∀ t k s o st, (env.NewClientSecretCredential t k s o st).1 = f t k s o)
    (hpresent : c.Credentials.TenantID ≠ "" ∧ c.Credentials.ClientID ≠ "" ∧
      c.Credentials.SubscriptionID ≠ "" ∧ c.Credentials.ClientSecret ≠ "")
    (hok : f c.Credentials.TenantID c.Credentials.ClientID c.Credentials.ClientSecret
      { ClientOptions := c.Credentials.ClientOptions } = Except.ok h) :
    (c.GetCredentials env w).1 = (some h, none) ∧
    (c.GetCredentials env w).2.ctorCalls = w.ctorCalls ++
      [⟨c.Credentials.TenantID, c.Credentials.ClientID, c.Credentials.ClientSecret,
        { ClientOptions := c.Credentials.ClientOptions }⟩,
       ⟨c.Credentials.TenantID, c.Credentials.ClientID, c.Credentials.ClientSecret,
        { ClientOptions := c.Credentials.ClientOptions }⟩] ∧
    (∀ c' : Config ClientOptions,
      c'.Credentials.TenantID = c.Credentials.TenantID →
      c'.Credentials.ClientID = c.Credentials.ClientID →
      c'.Credentials.ClientSecret = c.Credentials.ClientSecret →
      c'.Credentials.ClientOptions = c.Credentials.ClientOptions →
      c'.Credentials.SubscriptionID ≠ "" →
      c'.GetCredentials env w = c.GetCredentials env w) := by
  have hv : c.Credentials.Validate = none :=
    (Credentials.Validate_eq_none_iff _).2 hpresent
  have hr : ∀ w', env.ctorOutcome c.Credentials w' = Except.ok h := by
    intro w'
    unfold Env.ctorOutcome
    rw [hfun, hok]
  have hg := Config.GetCredentials_of_accepted_twice env c w h h hv (hr _) (hr _)
  refine ⟨by rw [hg], ?_, ?_⟩
  · rw [hg]
    simp [World.afterCtor, Credentials.ctorArgs]
  · intro c' h1 h2 h3 h4 h5
    have hv' : c'.Credentials.Validate = none := by
      apply (Credentials.Validate_eq_none_iff _).2
      exact ⟨h1 ▸ hpresent.1, h2 ▸ hpresent.2.1, h5, h3 ▸ hpresent.2.2.2⟩
    exact Config.GetCredentials_congr env c c' w hv hv' h1 h2 h3 h4

/-- Witness of C6: the constructor that accepts everything and returns the tenant id. -/
theorem C6_getCredentials_returns_constructor_handle_witness :
    ((⟨mkCreds "t" "c" "s" "k", "l"⟩ : Config Unit).GetCredentials
      (⟨decodeTo ⟨mkCreds "t" "c" "s" "k", "l"⟩, acceptAll⟩ : Env Unit Unit String) w0).1
      = (some "t", none) :=
  (C6_getCredentials_returns_constructor_handle
    (⟨decodeTo ⟨mkCreds "t" "c" "s" "k", "l"⟩, acceptAll⟩ : Env Unit Unit String)
    (fun t _ _ _ => Except.ok t) ⟨mkCreds "t" "c" "s" "k", "l"⟩ w0 "t"
    (fun _ _ _ _ _ => rfl) (by decide) rfl).1

/-- C7, counterexample: with all four identity fields non-empty and a constructor that
rejects the inputs, `GetCredentials` fails with a message that starts with
`error validating config: ` and does not start with
`failed to get authentication token: `. -/
theorem C7_rejection_reported_as_validation_error :
    (mkCreds "t" "c" "s" "k").allPresent ∧
    (rejectAll "t" "c" "k" { ClientOptions := () } ()).1
      = Except.error (GoError.errorf "bad tenant") ∧
    ((⟨mkCreds "t" "c" "s" "k", "l"⟩ : Config Unit).GetCredentials
      (⟨decodeTo ⟨mkCreds "t" "c" "s" "k", "l"⟩, rejectAll⟩ : Env Unit Unit String) w0).1
      = (none, some (GoError.wrapf "error validating config: "
          (GoError.wrapf "failed to validate credentials: " (GoError.errorf "bad tenant")))) ∧
    HasPrefix (GoError.wrapf "error validating config: "
      (GoError.wrapf "failed to validate credentials: " (GoError.errorf "bad tenant"))).Error
      "error validating config: " ∧
    ¬ HasPrefix (GoError.wrapf "error validating config: "
      (GoError.wrapf "failed to validate credentials: " (GoError.errorf "bad tenant"))).Error
      "failed to get authentication token: " := by
  refine ⟨by decide, rfl, rfl, by decide, by decide⟩

/-- C7, amended: for a Config whose four identity fields are non-empty, if the
constructor rejects the inputs at its first call (the one `Config.Validate` makes),
`GetCredentials` fails with the constructor's error wrapped as
`error validating config: failed to validate credentials: ` and the constructor is
called once; if the constructor accepts the first call and rejects the second,
`GetCredentials` fails with the constructor's error wrapped as
`failed to get authentication token: `. -/
theorem C7_amended_rejection_error {σ ClientOptions TokenCredential : Type}
    (env : Env σ ClientOptions TokenCredential) (c : Config ClientOptions)
    (w : World σ ClientOptions)
    (hpresent : c.Credentials.TenantID ≠ "" ∧ c.Credentials.ClientID ≠ "" ∧
      c.Credentials.SubscriptionID ≠ "" ∧ c.Credentials.ClientSecret ≠ "") :
    (∀ (err : GoError) (s1 : σ),
      env.NewClientSecretCredential c.Credentials.TenantID c.Credentials.ClientID
        c.Credentials.ClientSecret { ClientOptions := c.Credentials.ClientOptions } w.ext
        = (Except.error err, s1) →
      (c.GetCredentials env w).1 = (none, some (GoError.wrapf "error validating config: "
        (GoError.wrapf "failed to validate credentials: " err))) ∧
      (GoError.wrapf "error validating config: "
        (GoError.wrapf "failed to validate credentials: " err)).Error
        = "error validating config: " ++ ("failed to validate credentials: " ++ err.Error) ∧
      ¬ HasPrefix (GoError.wrapf "error validating config: "
        (GoError.wrapf "failed to validate credentials: " err)).Error
        "failed to get authentication token: " ∧
      (c.GetCredentials env w).2.ctorCalls = w.ctorCalls ++ [c.Credentials.ctorArgs]) ∧
    (∀ (cred : TokenCredential) (s1 : σ) (err : GoError) (s2 : σ),
      env.NewClientSecretCredential c.Credentials.TenantID c.Credentials.ClientID
        c.Credentials.ClientSecret { ClientOptions := c.Credentials.ClientOptions } w.ext
        = (Except.ok cred, s1) →
      env.NewClientSecretCredential c.Credentials.TenantID c.Credentials.ClientID
        c.Credentials.ClientSecret { ClientOptions := c.Credentials.ClientOptions } s1
        = (Except.error err, s2) →
      (c.GetCredentials env w).1
        = (none, some (GoError.wrapf "failed to get authentication token: " err)) ∧
      (GoError.wrapf "failed to get authentication token: " err).Error
        = "failed to get authentication token: " ++ err.Error) := by
  have hv : c.Credentials.Validate = none :=
    (Credentials.Validate_eq_none_iff _).2 hpresent
  constructor
  · intro err s1 h1
    have hr : env.ctorOutcome c.Credentials w = Except.error err := by
      simp [Env.ctorOutcome, h1]
    rw [Config.GetCredentials_of_rejected env c w err hv hr]
    refine ⟨rfl, rfl, ?_, rfl⟩
    rw [GoError.Error_wrapf]
    exact not_hasPrefix_append _ _ _ 1 (by decide) (by decide) (by decide)
  · intro cred s1 err s2 h1 h2
    have hr : env.ctorOutcome c.Credentials w = Except.ok cred := by
      simp [Env.ctorOutcome, h1]
    have hr2 : env.ctorOutcome c.Credentials (w.afterCtor env c.Credentials)
        = Except.error err := by
      simp [Env.ctorOutcome, World.afterCtor, h1, h2]
    rw [Config.GetCredentials_of_accepted_rejected env c w cred err hv hr hr2]
    exact ⟨rfl, rfl⟩

/-- Witness of C7 amended: first part at the constructor that rejects everything,
second part at the constructor that accepts only its first call. -/
theorem C7_amended_rejection_error_witness :
    ((⟨mkCreds "t" "c" "s" "k", "l"⟩ : Config Unit).GetCredentials
      (⟨decodeTo ⟨mkCreds "t" "c" "s" "k", "l"⟩, rejectAll⟩ : Env Unit Unit String) w0).1
      = (none, some (GoError.wrapf "error validating config: "
          (GoError.wrapf "failed to validate credentials: " (GoError.errorf "bad tenant")))) ∧
    ((⟨mkCreds "t" "c" "s" "k", "l"⟩ : Config Unit).GetCredentials
      (⟨decodeTo ⟨mkCreds "t" "c" "s" "k", "l"⟩, acceptOnce⟩ : Env Nat Unit String)
      ⟨0, []⟩).1
      = (none, some (GoError.wrapf "failed to get authentication token: "
          (GoError.errorf "bad tenant"))) :=
  ⟨((C7_amended_rejection_error
      (⟨decodeTo ⟨mkCreds "t" "c" "s" "k", "l"⟩, rejectAll⟩ : Env Unit Unit String)
      ⟨mkCreds "t" "c" "s" "k", "l"⟩ w0 (by decide)).1
      (GoError.errorf "bad tenant") () rfl).1,
   ((C7_amended_rejection_error
      (⟨decodeTo ⟨mkCreds "t" "c" "s" "k", "l"⟩, acceptOnce⟩ : Env Nat Unit String)
      ⟨mkCreds "t" "c" "s" "k", "l"⟩ ⟨0, []⟩ (by decide)).2
      "t" 1 (GoError.errorf "bad tenant") 2 rfl rfl).1⟩

/-- C8, counterexample: `Credentials.Auth` returns the error of the external constructor
as it is; the returned message is the constructor's message with no context in front
of it. -/
theorem C8_auth_passes_constructor_error_bare :
    (mkCreds "t" "c" "s" "k").allPresent ∧
    (rejectAll "t" "c" "k" { ClientOptions := () } ()).1
      = Except.error (GoError.errorf "bad tenant") ∧
    ((mkCreds "t" "c" "s" "k").Auth
      (⟨decodeTo ⟨mkCreds "t" "c" "s" "k", "l"⟩, rejectAll⟩ : Env Unit Unit String) w0).1
      = (none, some (GoError.errorf "bad tenant")) ∧
    ¬ ∃ pre : String, pre ≠ "" ∧
      (GoError.errorf "bad tenant").Error = pre ++ (GoError.errorf "bad tenant").Error := by
  refine ⟨by decide, rfl, rfl, ?_⟩
  rintro ⟨pre, hne, heq⟩
  exact hne (eq_append_self pre _ heq)

/-- C8, amended: every error that `NewConfig`, `Config.GetCredentials`, `Config.Validate`
and `Credentials.Auth` take from a callee is returned wrapped, its message unchanged
behind a non-empty context text, except that `Credentials.Auth` returns the error of
the external constructor as it is, without context.  A Config with an empty TenantID
makes `GetCredentials` fail with `error validating config: failed to validate
credentials: validating credentials: missing tenant_id`. -/
theorem C8_amended_errors_wrapped_except_constructor
    {σ ClientOptions TokenCredential : Type} [Inhabited ClientOptions]
    (env : Env σ ClientOptions TokenCredential) (cfgFile : String)
    (c : Config ClientOptions) (w : World σ ClientOptions) :
    (∀ cfg derr s1, env.DecodeFile cfgFile Config.zero w.ext = ((cfg, some derr), s1) →
      ∃ r, (NewConfig env cfgFile w).1 = (none, some r) ∧
        addsContext "error decoding config: " derr r) ∧
    (∀ cfg s1 verr w2, env.DecodeFile cfgFile Config.zero w.ext = ((cfg, none), s1) →
      cfg.Validate env { ext := s1, ctorCalls := w.ctorCalls } = (some verr, w2) →
      ∃ r, (NewConfig env cfgFile w).1 = (none, some r) ∧
        addsContext "error validating config: " verr r) ∧
    (∀ verr w1, c.Validate env w = (some verr, w1) →
      ∃ r, (c.GetCredentials env w).1 = (none, some r) ∧
        addsContext "error validating config: " verr r) ∧
    (∀ w1 cred aerr w2, c.Validate env w = (none, w1) →
      c.Credentials.Auth env w1 = ((cred, some aerr), w2) →
      ∃ r, (c.GetCredentials env w).1 = (none, some r) ∧
        addsContext "failed to get authentication token: " aerr r) ∧
    (∀ cred aerr w1, c.Credentials.Auth env w = ((cred, some aerr), w1) →
      ∃ r, (c.Validate env w).1 = some r ∧
        addsContext "failed to validate credentials: " aerr r) ∧
    (∀ verr, c.Credentials.Validate = some verr →
      ∃ r, (c.Credentials.Auth env w).1 = (none, some r) ∧
        addsContext "validating credentials: " verr r) ∧
    (∀ cerr s1, c.Credentials.Validate = none →
      env.NewClientSecretCredential c.Credentials.TenantID c.Credentials.ClientID
        c.Credentials.ClientSecret { ClientOptions := c.Credentials.ClientOptions } w.ext
        = (Except.error cerr, s1) →
      (c.Credentials.Auth env w).1 = (none, some cerr)) ∧
    (c.Credentials.TenantID = "" →
      (c.GetCredentials env w).1.2.map GoError.Error = some
        "error validating config: failed to validate credentials: validating credentials: missing tenant_id") := by
  refine ⟨?_, ?_, ?_, ?_, ?_, ?_, ?_, ?_⟩
  · intro cfg derr s1 h
    exact ⟨GoError.wrapf "error decoding config: " derr,
      by simp [NewConfig, Env.callDecodeFile, h], by decide, rfl, rfl⟩
  · intro cfg s1 verr w2 h hv
    exact ⟨GoError.wrapf "error validating config: " verr,
      by simp [NewConfig, Env.callDecodeFile, h, hv], by decide, rfl, rfl⟩
  · intro verr w1 hv
    exact ⟨GoError.wrapf "error validating config: " verr,
      by simp [Config.GetCredentials, hv], by decide, rfl, rfl⟩
  · intro w1 cred aerr w2 hv ha
    exact ⟨GoError.wrapf "failed to get authentication token: " aerr,
      by simp [Config.GetCredentials, hv, ha], by decide, rfl, rfl⟩
  · intro cred aerr w1 ha
    exact ⟨GoError.wrapf "failed to validate credentials: " aerr,
      by simp [Config.Validate, ha], by decide, rfl, rfl⟩
  · intro verr hv
    exact ⟨GoError.wrapf "validating credentials: " verr,
      by rw [Credentials.Auth_of_missing env _ w verr hv], by decide, rfl, rfl⟩
  · intro cerr s1 hv hc
    have hr : env.ctorOutcome c.Credentials w = Except.error cerr := by
      simp [Env.ctorOutcome, hc]
    rw [Credentials.Auth_of_rejected env _ w cerr hv hr]
  · intro ht
    have hv : c.Credentials.Validate = some (GoError.errorf "missing tenant_id") := by
      simp [Credentials.Validate, ht]
    rw [Config.GetCredentials_of_missing env c w _ hv]
    rfl

/-- Witness of C8 amended: the wrapped validation error of `GetCredentials` for a Config
with an empty TenantID. -/
theorem C8_amended_errors_wrapped_except_constructor_witness :
    ((⟨mkCreds "" "c" "s" "k", "l"⟩ : Config Unit).GetCredentials
      (⟨decodeTo ⟨mkCreds "t" "c" "s" "k", "l"⟩, acceptAll⟩ : Env Unit Unit String)
      w0).1.2.map GoError.Error = some
      "error validating config: failed to validate credentials: validating credentials: missing tenant_id" ∧
    ((mkCreds "t" "c" "s" "k").Auth
      (⟨decodeTo ⟨mkCreds "t" "c" "s" "k", "l"⟩, rejectAll⟩ : Env Unit Unit String) w0).1
      = (none, some (GoError.errorf "bad tenant")) :=
  ⟨(C8_amended_errors_wrapped_except_constructor
      (⟨decodeTo ⟨mkCreds "t" "c" "s" "k", "l"⟩, acceptAll⟩ : Env Unit Unit String)
      "garm.toml" ⟨mkCreds "" "c" "s" "k", "l"⟩ w0).2.2.2.2.2.2.2 rfl,
   (C8_amended_errors_wrapped_except_constructor
      (⟨decodeTo ⟨mkCreds "t" "c" "s" "k", "l"⟩, rejectAll⟩ : Env Unit Unit String)
      "garm.toml" ⟨mkCreds "t" "c" "s" "k", "l"⟩ w0).2.2.2.2.2.2.1
      (GoError.errorf "bad tenant") () rfl rfl⟩

/-- C9: `Config.Validate` returns no error exactly when the four identity fields are
non-empty and the constructor succeeds on (TenantID, ClientID, ClientSecret, options
carrying ClientOptions); with a field missing the constructor is not called and the
world is unchanged, with all fields present it is called exactly once, with those
arguments; the handle is not part of the result. -/
theorem C9_config_validate_runs_constructor {σ ClientOptions TokenCredential : Type}
    (env : Env σ ClientOptions TokenCredential) (c : Config ClientOptions)
    (w : World σ ClientOptions) :
    ((c.Validate env w).1 = none ↔
      ((c.Credentials.TenantID ≠ "" ∧ c.Credentials.ClientID ≠ "" ∧
        c.Credentials.SubscriptionID ≠ "" ∧ c.Credentials.ClientSecret ≠ "") ∧
       ∃ cred, (env.NewClientSecretCredential c.Credentials.TenantID
         c.Credentials.ClientID c.Credentials.ClientSecret
         { ClientOptions := c.Credentials.ClientOptions } w.ext).1 = Except.ok cred)) ∧
    (¬ (c.Credentials.TenantID ≠ "" ∧ c.Credentials.ClientID ≠ "" ∧
        c.Credentials.SubscriptionID ≠ "" ∧ c.Credentials.ClientSecret ≠ "") →
      (c.Validate env w).2 = w) ∧
    ((c.Credentials.TenantID ≠ "" ∧ c.Credentials.ClientID ≠ "" ∧
        c.Credentials.SubscriptionID ≠ "" ∧ c.Credentials.ClientSecret ≠ "") →
      (c.Validate env w).2.ctorCalls = w.ctorCalls ++
        [⟨c.Credentials.TenantID, c.Credentials.ClientID, c.Credentials.ClientSecret,
          { ClientOptions := c.Credentials.ClientOptions }⟩] ∧
      (c.Validate env w).2.ext = (env.NewClientSecretCredential c.Credentials.TenantID
         c.Credentials.ClientID c.Credentials.ClientSecret
         { ClientOptions := c.Credentials.ClientOptions } w.ext).2) := by
  have hiff := Credentials.Validate_eq_none_iff c.Credentials
  unfold Credentials.allPresent at hiff
  cases hv : c.Credentials.Validate with
  | some verr =>
    have hnp : ¬ (c.Credentials.TenantID ≠ "" ∧ c.Credentials.ClientID ≠ "" ∧
        c.Credentials.SubscriptionID ≠ "" ∧ c.Credentials.ClientSecret ≠ "") := by
      intro hp
      rw [hiff.2 hp] at hv
      cases hv
    rw [Config.Validate_of_missing env c w verr hv]
    exact ⟨⟨fun h => (by cases h), fun h => absurd h.1 hnp⟩, fun _ => rfl,
      fun hp => absurd hp hnp⟩
  | none =>
    have hp := hiff.1 hv
    cases hr : env.ctorOutcome c.Credentials w with
    | error cerr =>
      rw [Config.Validate_of_rejected env c w cerr hv hr]
      unfold Env.ctorOutcome at hr
      refine ⟨⟨fun h => (by cases h), ?_⟩, fun hnp => absurd hp hnp, fun _ => ⟨rfl, rfl⟩⟩
      rintro ⟨_, cred, hc⟩
      rw [hr] at hc
      cases hc
    | ok cred =>
      rw [Config.Validate_of_accepted env c w cred hv hr]
      unfold Env.ctorOutcome at hr
      exact ⟨⟨fun _ => ⟨hp, cred, hr⟩, fun _ => rfl⟩, fun hnp => absurd hp hnp,
        fun _ => ⟨rfl, rfl⟩⟩

/-- Witness of C9: one constructor call for a complete Config, none for a Config with
an empty client secret. -/
theorem C9_config_validate_runs_constructor_witness :
    ((⟨mkCreds "t" "c" "s" "k", "l"⟩ : Config Unit).Validate
      (⟨decodeTo ⟨mkCreds "t" "c" "s" "k", "l"⟩, acceptAll⟩ : Env Unit Unit String)
      w0).2.ctorCalls
      = w0.ctorCalls ++ [⟨"t", "c", "k", { ClientOptions := () }⟩] ∧
    ((⟨mkCreds "t" "c" "s" "", "l"⟩ : Config Unit).Validate
      (⟨decodeTo ⟨mkCreds "t" "c" "s" "k", "l"⟩, acceptAll⟩ : Env Unit Unit String)
      w0).2 = w0 :=
  ⟨((C9_config_validate_runs_constructor
      (⟨decodeTo ⟨mkCreds "t" "c" "s" "k", "l"⟩, acceptAll⟩ : Env Unit Unit String)
      ⟨mkCreds "t" "c" "s" "k", "l"⟩ w0).2.2 (by decide)).1,
   (C9_config_validate_runs_constructor
      (⟨decodeTo ⟨mkCreds "t" "c" "s" "k", "l"⟩, acceptAll⟩ : Env Unit Unit String)
      ⟨mkCreds "t" "c" "s" "", "l"⟩ w0).2.1 (by decide)⟩

/-- C10: with a deterministic constructor, `GetCredentials` never returns an error whose
message starts with `failed to get authentication token: `: every error it returns
starts with `error validating config: `, coming from the preceding `Config.Validate`;
when it returns no error it returns a handle and the constructor has been called
exactly twice, both times with the same arguments. -/
theorem C10_second_error_branch_unreachable {σ ClientOptions TokenCredential : Type}
    (env : Env σ ClientOptions TokenCredential) (hdet : env.deterministic)
    (c : Config ClientOptions) (w : World σ ClientOptions) :
    (∀ e, (c.GetCredentials env w).1.2 = some e →
      HasPrefix e.Error "error validating config: " ∧
      ¬ HasPrefix e.Error "failed to get authentication token: " ∧
      ∀ inner, e ≠ GoError.wrapf "failed to get authentication token: " inner) ∧
    ((c.GetCredentials env w).1.2 = none →
      (∃ cred, (c.GetCredentials env w).1.1 = some cred) ∧
      (c.GetCredentials env w).2.ctorCalls = w.ctorCalls ++
        [⟨c.Credentials.TenantID, c.Credentials.ClientID, c.Credentials.ClientSecret,
          { ClientOptions := c.Credentials.ClientOptions }⟩,
         ⟨c.Credentials.TenantID, c.Credentials.ClientID, c.Credentials.ClientSecret,
          { ClientOptions := c.Credentials.ClientOptions }⟩]) := by
  have key : ∀ inner : GoError,
      HasPrefix (GoError.wrapf "error validating config: " inner).Error
        "error validating config: " ∧
      ¬ HasPrefix (GoError.wrapf "error validating config: " inner).Error
        "failed to get authentication token: " ∧
      ∀ inner2, GoError.wrapf "error validating config: " inner
        ≠ GoError.wrapf "failed to get authentication token: " inner2 := by
    intro inner
    refine ⟨hasPrefix_append_self _ _, ?_, ?_⟩
    · rw [GoError.Error_wrapf]
      exact not_hasPrefix_append _ _ _ 1 (by decide) (by decide) (by decide)
    · intro inner2 h
      injection h with h1 _
      exact absurd h1 (by decide)
  cases hv : c.Credentials.Validate with
  | some verr =>
    rw [Config.GetCredentials_of_missing env c w verr hv]
    refine ⟨?_, fun h => by cases h⟩
    intro e he
    cases he
    exact key _
  | none =>
    cases hr : env.ctorOutcome c.Credentials w with
    | error cerr =>
      rw [Config.GetCredentials_of_rejected env c w cerr hv hr]
      refine ⟨?_, fun h => by cases h⟩
      intro e he
      cases he
      exact key _
    | ok cred =>
      cases hr2 : env.ctorOutcome c.Credentials (w.afterCtor env c.Credentials) with
      | error cerr =>
        exfalso
        have hd := hdet c.Credentials.TenantID c.Credentials.ClientID
          c.Credentials.ClientSecret { ClientOptions := c.Credentials.ClientOptions }
          w.ext (w.afterCtor env c.Credentials).ext
        unfold Env.ctorOutcome at hr hr2
        rw [hr, hr2] at hd
        cases hd
      | ok cred2 =>
        rw [Config.GetCredentials_of_accepted_twice env c w cred cred2 hv hr hr2]
        refine ⟨fun e he => (by cases he), fun _ => ⟨⟨cred2, rfl⟩, ?_⟩⟩
        simp [World.afterCtor, Credentials.ctorArgs]

/-- Witness of C10: the constructor that rejects everything is deterministic and the
error of `GetCredentials` is the validation error; the constructor that accepts
everything is deterministic and is called twice. -/
theorem C10_second_error_branch_unreachable_witness :
    HasPrefix (GoError.wrapf "error validating config: "
      (GoError.wrapf "failed to validate credentials: " (GoError.errorf "bad tenant"))).Error
      "error validating config: " ∧
    ((⟨mkCreds "t" "c" "s" "k", "l"⟩ : Config Unit).GetCredentials
      (⟨decodeTo ⟨mkCreds "t" "c" "s" "k", "l"⟩, acceptAll⟩ : Env Unit Unit String)
      w0).2.ctorCalls
      = w0.ctorCalls ++ [⟨"t", "c", "k", { ClientOptions := () }⟩,
          ⟨"t", "c", "k", { ClientOptions := () }⟩] :=
  ⟨((C10_second_error_branch_unreachable
      (⟨decodeTo ⟨mkCreds "t" "c" "s" "k", "l"⟩, rejectAll⟩ : Env Unit Unit String)
      (fun _ _ _ _ _ _ => rfl) ⟨mkCreds "t" "c" "s" "k", "l"⟩ w0).1
      (GoError.wrapf "error validating config: "
        (GoError.wrapf "failed to validate credentials: " (GoError.errorf "bad tenant")))
      rfl).1,
   ((C10_second_error_branch_unreachable
      (⟨decodeTo ⟨mkCreds "t" "c" "s" "k", "l"⟩, acceptAll⟩ : Env Unit Unit String)
      (fun _ _ _ _ _ _ => rfl) ⟨mkCreds "t" "c" "s" "k", "l"⟩ w0).2 rfl).2⟩
